import Mathlib

/-!
Shallow embedding of the conversation-state and guardrail core of the
`agentic-devops-starter` repository (files `src/app/src/logging_utils.py`,
`src/app/src/config/llm_config.py`, `src/app/src/agents/base_agent.py`,
`src/app/src/agents/conversational_agent.py`).

Python mutable objects become explicit state passing: the ambient
correlation-id context variable and the uuid4 entropy source are a
`CorrelationCtx`; emitted log records are collected in a `World`;
`self` becomes an `Agent` value threaded through each operation; a
Python `raise` becomes an `Except.error` result paired with the (here
unmutated) agent, matching the fact that mutations performed before a
raise would persist on the object.
-/

/-- Log levels used by the embedded logger (`logger.info` / `logger.warning`). -/
inductive LogLevel where
  | info
  | warning
deriving DecidableEq

/-- `logging_utils.py`: the contextvar `correlation_id_var` together with the
uuid4 entropy source, modelled as a fresh-name counter.  `uuid.uuid4()` draws
`uuidString nextUuid` and bumps the counter; collision resistance of uuid4
corresponds to freshness of the counter stream. -/
structure CorrelationCtx where
  var : Option String
  nextUuid : Nat
deriving DecidableEq

/-- Rendering of a drawn uuid4 value (`str(uuid.uuid4())`). -/
def uuidString (n : Nat) : String :=
  "uuid-" ++ toString n

/-- `logging_utils.get_correlation_id`: return the current correlation id, or
generate a new one, store it and return it if none exists. -/
def get_correlation_id (c : CorrelationCtx) : String × CorrelationCtx :=
  match c.var with
  | some cid => (cid, c)
  | none =>
      let cid := uuidString c.nextUuid
      (cid, { var := some cid, nextUuid := c.nextUuid + 1 })

/-- `logging_utils.set_correlation_id`: overwrite the current correlation id. -/
def set_correlation_id (cid : String) (c : CorrelationCtx) : CorrelationCtx :=
  { c with var := some cid }

/-- Process-wide ambient state: the correlation context plus the stream of
log records emitted so far (level and message text). -/
structure World where
  ctx : CorrelationCtx
  log : List (LogLevel × String)
deriving DecidableEq

/-- `logging_utils.log_llm_interaction`: reads (and thereby possibly creates)
the current correlation id for the structured payload, then emits one info
record `"LLM Interaction: <operation>"`. -/
def log_llm_interaction (w : World) (operation : String) : World :=
  let g := get_correlation_id w.ctx
  { ctx := g.2, log := w.log ++ [(LogLevel.info, "LLM Interaction: " ++ operation)] }

/-- Plain `logger.info` emission. -/
def logInfo (w : World) (msg : String) : World :=
  { w with log := w.log ++ [(LogLevel.info, msg)] }

/-- Plain `logger.warning` emission. -/
def logWarning (w : World) (msg : String) : World :=
  { w with log := w.log ++ [(LogLevel.warning, msg)] }

/-- `llm_config.LLMProvider` enum. -/
inductive LLMProvider where
  | openai
  | azure_openai
deriving DecidableEq

/-- `llm_config.LLMConfig` pydantic model.  `temperature` is a Python float
carrying the pydantic bounds `ge=0.0, le=2.0`, modelled as a rational;
`max_tokens` is a Python int with `gt=0`, modelled as an integer. -/
structure LLMConfig where
  provider : LLMProvider
  api_key : String
  model : String
  temperature : ℚ
  max_tokens : ℤ
  azure_endpoint : Option String
  azure_deployment : Option String
  api_version : Option String
  fallback_provider : Option LLMProvider
  fallback_model : Option String
  enable_token_tracking : Bool
deriving DecidableEq

/-- Pydantic rejection of an `LLMConfig` construction: which field bound failed. -/
inductive ConfigError where
  | invalidTemperature
  | invalidMaxTokens
deriving DecidableEq

/-- Validated construction of `LLMConfig`.  Every field of the pydantic model
has a default, so each argument is optional (a `none` argument is an omitted
field); pydantic rejects a provided `temperature` outside `[0, 2]` and a
provided `max_tokens ≤ 0`.  The `api_key` default models
`os.getenv("OPENAI_API_KEY", "")` with the variable unset. -/
def mkLLMConfig (provider : Option LLMProvider) (api_key : Option String)
    (model : Option String) (temperature : Option ℚ) (max_tokens : Option ℤ)
    (azure_endpoint : Option String) (azure_deployment : Option String)
    (api_version : Option (Option String)) (fallback_provider : Option LLMProvider)
    (fallback_model : Option String) (enable_token_tracking : Option Bool) :
    Except ConfigError LLMConfig :=
  let t := temperature.getD (7 / 10)
  let mt := max_tokens.getD 1000
  if t < 0 ∨ 2 < t then
    .error .invalidTemperature
  else if mt ≤ 0 then
    .error .invalidMaxTokens
  else
    .ok { provider := provider.getD .openai
          api_key := api_key.getD ""
          model := model.getD "gpt-4"
          temperature := t
          max_tokens := mt
          azure_endpoint := azure_endpoint
          azure_deployment := azure_deployment
          api_version := api_version.getD (some "2024-02-15-preview")
          fallback_provider := fallback_provider
          fallback_model := fallback_model
          enable_token_tracking := enable_token_tracking.getD true }

/-- `LLMConfig()` with every field left to its default. -/
def defaultLLMConfig : LLMConfig :=
  { provider := .openai
    api_key := ""
    model := "gpt-4"
    temperature := 7 / 10
    max_tokens := 1000
    azure_endpoint := none
    azure_deployment := none
    api_version := some "2024-02-15-preview"
    fallback_provider := none
    fallback_model := none
    enable_token_tracking := true }

/-- One `{"role": ..., "content": ...}` entry of the conversation history. -/
structure Message where
  role : String
  content : String
deriving DecidableEq

/-- `base_agent.AgentState` pydantic model.  `context` is a free-form string
map; this codebase never writes to it, so string values suffice. -/
structure AgentState where
  conversation_id : String
  message_count : Nat
  context : List (String × String)
  history : List Message
deriving DecidableEq

/-- The mutable fields of `BaseAgent` / `ConversationalAgent` (`self`). -/
structure Agent where
  name : String
  llm_config : LLMConfig
  system_prompt : String
  state : Option AgentState
deriving DecidableEq

/-- Characters stripped by Python `str.strip()` (ASCII whitespace). -/
def isSpaceChar (c : Char) : Bool :=
  c = ' ' || c = '\t' || c = '\n' || c = '\r' || c = Char.ofNat 11 || c = Char.ofNat 12

/-- Python `s.strip()` on the character list of `s`. -/
def pyStrip (s : List Char) : List Char :=
  ((s.dropWhile isSpaceChar).reverse.dropWhile isSpaceChar).reverse

/-- `not message or not message.strip()`: the string is empty or
whitespace-only. -/
def isBlank (s : String) : Bool :=
  s.toList.all isSpaceChar

/-- Python `str.lower()` restricted to ASCII, as the character list. -/
def lowerList (s : String) : List Char :=
  s.toList.map Char.toLower

/-- `sub in s` on Python strings: substring containment. -/
def containsSub (s sub : List Char) : Bool :=
  (List.range (s.length + 1)).any fun i => decide ((s.drop i).take sub.length = sub)

/-- A regex word character (`\w` over ASCII): letter, digit or underscore. -/
def isWordChar (c : Char) : Bool :=
  c.isAlpha || c.isDigit || c = '_'

/-- `re.search(r"\b<word>\b", s)` succeeding at position `i`: the word occurs
at `i` and both ends sit at word boundaries. -/
def matchesWordAt (s w : List Char) (i : Nat) : Bool :=
  decide ((s.drop i).take w.length = w)
    && (decide (i = 0) || !isWordChar (s.getD (i - 1) ' '))
    && (decide (s.length ≤ i + w.length) || !isWordChar (s.getD (i + w.length) ' '))

/-- `re.search(r"\b(w1|w2|...)\b", s)` succeeding anywhere in `s`: each
alternative is a run of word characters, so the group matches iff some word
occurs with boundaries on both sides. -/
def regexWordSearch (words : List String) (s : List Char) : Bool :=
  (List.range (s.length + 1)).any fun i => words.any fun w => matchesWordAt s w.toList i

/-- The `harmful_patterns` list of `ConversationalAgent.validate_response`: each
entry is the regex source text paired with its alternatives. -/
def harmful_patterns : List (String × List String) :=
  [("\\b(hack|exploit|malware|virus)\\b", ["hack", "exploit", "malware", "virus"]),
   ("\\b(steal|fraud|scam)\\b", ["steal", "fraud", "scam"])]

/-- The first entry of `harmful_patterns` matching `response.lower()`, if any
(the loop in `validate_response` returns on the first hit). -/
def findHarmfulPattern (response : String) : Option String :=
  (harmful_patterns.find? fun p => regexWordSearch p.2 (lowerList response)).map Prod.fst

/-- `ConversationalAgent.validate_response`: pure guardrail check returning
`(is_valid, error_message)`. -/
def validate_response (cfg : LLMConfig) (response : String) : Bool × Option String :=
  if response = "" || (pyStrip response.toList).length < 3 then
    (false, some "Response is empty or too short")
  else
    let max_length := cfg.max_tokens * 4
    if (response.length : ℤ) > max_length then
      (false, some ("Response exceeds maximum length of " ++ toString max_length ++ " characters"))
    else
      match findHarmfulPattern response with
      | some p => (false, some ("Response contains potentially harmful content: " ++ p))
      | none => (true, none)

/-- `BaseAgent._default_system_prompt`. -/
def default_system_prompt : String :=
  "You are a helpful AI assistant. Provide accurate, helpful, and safe responses to user queries."

/-- `ConversationalAgent._get_conversational_prompt`. -/
def conversational_prompt : String :=
  "You are a helpful and knowledgeable AI assistant. Provide accurate, clear, and concise responses to user queries. If you\x27re unsure about something, acknowledge it. Be professional, respectful, and helpful. Avoid harmful, offensive, or inappropriate content."

/-- The fixed fallback substituted when response validation fails. -/
def apologyString : String :=
  "I apologize, but I cannot provide a response at this time."

/-- `ConversationalAgent._generate_response`: mock pattern-matched generation
(`"hello" in ...` etc. are Python substring tests on the lowercased message). -/
def generate_response (message : String) : String :=
  let ml := lowerList message
  if containsSub ml "hello".toList || containsSub ml "hi".toList then
    "Hello! I\x27m here to help you. How can I assist you today?"
  else if containsSub ml "how are you".toList then
    "I\x27m functioning well, thank you for asking! I\x27m ready to help with any questions you have."
  else if containsSub ml "help".toList then
    "I\x27m an AI assistant built with the microsoft-agent-framework. I can help answer questions, provide information, and assist with various tasks. What would you like to know?"
  else
    "I understand you said: \x27" ++ message ++ "\x27. This is a demonstration of the agent framework integration. In production, I would provide a more intelligent response using the configured LLM provider."

/-- Appending one message to an existing state: the body of
`BaseAgent.add_to_history` after the `None` guard. -/
def appendMsg (st : AgentState) (role content : String) : AgentState :=
  { st with history := st.history ++ [{ role := role, content := content }]
            message_count := st.message_count + 1 }

/-- `BaseAgent.initialize_state`: build a fresh `AgentState` keyed to the
given conversation id, or to the current correlation id (possibly freshly
generated) when none is given; logs one info record. -/
def initialize_state (a : Agent) (w : World) (conversation_id : Option String) :
    Agent × World :=
  let g := match conversation_id with
    | some cid => (cid, w.ctx)
    | none => get_correlation_id w.ctx
  let st : AgentState :=
    { conversation_id := g.1, message_count := 0, context := [], history := [] }
  ({ a with state := some st },
   logInfo { w with ctx := g.2 } ("Initialized state for conversation: " ++ g.1))

/-- `BaseAgent.add_to_history`: initialize the state first when it is absent,
then append the message and bump `message_count`. -/
def add_to_history (a : Agent) (w : World) (role content : String) : Agent × World :=
  match a.state with
  | some st => ({ a with state := some (appendMsg st role content) }, w)
  | none =>
      let r := initialize_state a w none
      match r.1.state with
      | some st => ({ r.1 with state := some (appendMsg st role content) }, r.2)
      | none => r

/-- Raised by `process_message` for empty input
(`ValueError("Message cannot be empty")`; the spec calls it `EmptyInputError`). -/
inductive AgentError where
  | emptyInput
deriving DecidableEq

/-- `ConversationalAgent.process_message`: validate input, append the user
message, log, generate, validate the candidate (substituting the apology and
logging a warning on rejection), append the assistant message, log again and
return the final response.  A raise returns `.error` with the agent as it was
at the raise point. -/
def process_message (a : Agent) (w : World) (message : String) :
    Except AgentError String × Agent × World :=
  if isBlank message then
    (.error .emptyInput, a, w)
  else
    let r1 := add_to_history a w "user" message
    let w2 := log_llm_interaction r1.2 "process_message"
    let response := generate_response message
    let v := validate_response r1.1.llm_config response
    let w3 := if v.1 then w2 else
      logWarning w2 ("Response validation failed: " ++ v.2.getD "")
    let finalResponse := if v.1 then response else apologyString
    let r2 := add_to_history r1.1 w3 "assistant" finalResponse
    let w4 := log_llm_interaction r2.2 "response_generated"
    (.ok finalResponse, r2.1, w4)

/-- Result of `ConversationalAgent.get_conversation_summary`: either the
`{"error": "No active conversation"}` dict or the summary dict. -/
inductive Summary where
  | noActive
  | active (conversation_id : String) (message_count : Nat) (history_length : Nat)
      (context : List (String × String))
deriving DecidableEq

/-- `ConversationalAgent.get_conversation_summary` (pure observer). -/
def get_conversation_summary (a : Agent) : Summary :=
  match a.state with
  | none => .noActive
  | some st => .active st.conversation_id st.message_count st.history.length st.context

/-- `ConversationalAgent.reset_conversation`: draw a fresh uuid4, set it as
the current correlation id, replace the state wholesale, log. -/
def reset_conversation (a : Agent) (w : World) : Agent × World :=
  let newId := uuidString w.ctx.nextUuid
  let ctx1 := set_correlation_id newId { w.ctx with nextUuid := w.ctx.nextUuid + 1 }
  let r := initialize_state a { w with ctx := ctx1 } none
  (r.1, logInfo r.2 "Conversation reset")

/-- `ConversationalAgent.__init__` (through `BaseAgent.__init__`): fill in the
default config and prompt, log, then initialize the conversation state. -/
def mkConversationalAgent (name : String) (llm_config : Option LLMConfig)
    (system_prompt : Option String) (w : World) : Agent × World :=
  let cfg := llm_config.getD defaultLLMConfig
  let sp := system_prompt.getD conversational_prompt
  let a : Agent := { name := name, llm_config := cfg, system_prompt := sp, state := none }
  let w1 := logInfo w ("Initialized agent \x27" ++ name ++ "\x27")
  initialize_state a w1 none

/-- The public mutating operations of a constructed agent, for reachability
statements (`get_conversation_summary` is a pure observer and mutates
nothing). -/
inductive AgentOp where
  | procMsg (message : String)
  | addHist (role content : String)
  | initState (conversation_id : Option String)
  | reset
deriving DecidableEq

/-- One public operation applied to an agent and its world; a raised
exception leaves both exactly as `process_message` returned them. -/
def runOp (s : Agent × World) (op : AgentOp) : Agent × World :=
  match op with
  | .procMsg m => (process_message s.1 s.2 m).2
  | .addHist role content => add_to_history s.1 s.2 role content
  | .initState cid => initialize_state s.1 s.2 cid
  | .reset => reset_conversation s.1 s.2

/-- A freshly initialized conversation state for a conversation id. -/
def freshState (cid : String) : AgentState :=
  { conversation_id := cid, message_count := 0, context := [], history := [] }

/-- The response ultimately delivered by `process_message` for a message. -/
def finalResponse (cfg : LLMConfig) (m : String) : String :=
  if (validate_response cfg (generate_response m)).1 then generate_response m else apologyString

/-- A concrete constructed agent state/agent/world used as witness input. -/
def exState : AgentState :=
  { conversation_id := "uuid-0", message_count := 0, context := [], history := [] }

def exAgent : Agent :=
  { name := "ConversationalAgent", llm_config := defaultLLMConfig,
    system_prompt := conversational_prompt, state := some exState }

def exWorld : World :=
  { ctx := { var := some "uuid-0", nextUuid := 1 }, log := [] }

/-- An agent whose configuration makes even the apology string fail the
length guardrail (`max_tokens * 4 = 4`). -/
def exAgentSmall : Agent :=
  { exAgent with llm_config := { defaultLLMConfig with max_tokens := 1 } }


theorem initialize_state_eq_none (a : Agent) (w : World) :
    initialize_state a w none =
      ({ a with state := some (freshState (get_correlation_id w.ctx).1) },
       logInfo { w with ctx := (get_correlation_id w.ctx).2 }
         ("Initialized state for conversation: " ++ (get_correlation_id w.ctx).1)) := rfl

theorem initialize_state_eq_some (a : Agent) (w : World) (cid : String) :
    initialize_state a w (some cid) =
      ({ a with state := some (freshState cid) },
       logInfo w ("Initialized state for conversation: " ++ cid)) := rfl

theorem add_to_history_some (a : Agent) (w : World) (role content : String) (s : AgentState)
    (h : a.state = some s) :
    add_to_history a w role content = ({ a with state := some (appendMsg s role content) }, w) := by
  unfold add_to_history
  rw [h]

theorem add_to_history_none (a : Agent) (w : World) (role content : String)
    (h : a.state = none) :
    add_to_history a w role content =
      ({ a with state := some (appendMsg (freshState (get_correlation_id w.ctx).1) role content) },
       logInfo { w with ctx := (get_correlation_id w.ctx).2 }
         ("Initialized state for conversation: " ++ (get_correlation_id w.ctx).1)) := by
  unfold add_to_history
  rw [h, initialize_state_eq_none]

theorem process_message_eq_some (a : Agent) (w : World) (m : String) (s : AgentState)
    (h : a.state = some s) (hm : isBlank m = false) :
    process_message a w m =
      (.ok (finalResponse a.llm_config m),
       { a with state := some (appendMsg (appendMsg s "user" m) "assistant"
           (finalResponse a.llm_config m)) },
       log_llm_interaction
         (if (validate_response a.llm_config (generate_response m)).1 then
            log_llm_interaction w "process_message"
          else
            logWarning (log_llm_interaction w "process_message")
              ("Response validation failed: " ++
                ((validate_response a.llm_config (generate_response m)).2.getD "")))
         "response_generated") := by
  unfold process_message finalResponse
  rw [hm]
  simp only [Bool.false_eq_true, if_false]
  rw [add_to_history_some a w "user" m s h]
  rw [add_to_history_some _ _ "assistant" _ (appendMsg s "user" m) rfl]

theorem process_message_blank (a : Agent) (w : World) (m : String) (h : isBlank m = true) :
    process_message a w m = (.error .emptyInput, a, w) := by
  unfold process_message
  rw [h]
  rfl

theorem process_message_eq_none (a : Agent) (w : World) (m : String)
    (h : a.state = none) (hm : isBlank m = false) :
    process_message a w m =
      (.ok (finalResponse a.llm_config m),
       { a with state := some (appendMsg (appendMsg (freshState (get_correlation_id w.ctx).1)
           "user" m) "assistant" (finalResponse a.llm_config m)) },
       log_llm_interaction
         (if (validate_response a.llm_config (generate_response m)).1 then
            log_llm_interaction
              (logInfo { w with ctx := (get_correlation_id w.ctx).2 }
                ("Initialized state for conversation: " ++ (get_correlation_id w.ctx).1))
              "process_message"
          else
            logWarning
              (log_llm_interaction
                (logInfo { w with ctx := (get_correlation_id w.ctx).2 }
                  ("Initialized state for conversation: " ++ (get_correlation_id w.ctx).1))
                "process_message")
              ("Response validation failed: " ++
                ((validate_response a.llm_config (generate_response m)).2.getD "")))
         "response_generated") := by
  unfold process_message finalResponse
  rw [hm]
  simp only [Bool.false_eq_true, if_false]
  rw [add_to_history_none a w "user" m h]
  rw [add_to_history_some _ _ "assistant" _ _ rfl]

theorem finalResponse_invalid (cfg : LLMConfig) (m : String)
    (hv : (validate_response cfg (generate_response m)).1 = false) :
    finalResponse cfg m = apologyString := by
  unfold finalResponse
  rw [hv]
  rfl

theorem log_llm_interaction_log (w : World) (op : String) :
    (log_llm_interaction w op).log = w.log ++ [(LogLevel.info, "LLM Interaction: " ++ op)] := rfl

theorem process_message_not_blank (a : Agent) (w : World) (m : String)
    (hm : isBlank m = false) :
    ∃ a' w', process_message a w m = (.ok (finalResponse a.llm_config m), a', w') ∧
      ((validate_response a.llm_config (generate_response m)).1 = false →
        (LogLevel.warning, "Response validation failed: " ++
          ((validate_response a.llm_config (generate_response m)).2.getD "")) ∈ w'.log) := by
  cases hs : a.state with
  | some s =>
    refine ⟨_, _, process_message_eq_some a w m s hs hm, ?_⟩
    intro hv
    rw [hv]
    simp [log_llm_interaction_log, logWarning]
  | none =>
    refine ⟨_, _, process_message_eq_none a w m hs hm, ?_⟩
    intro hv
    rw [hv]
    simp [log_llm_interaction_log, logWarning]

/-- C3: for every empty or whitespace-only input, `process_message` raises
`EmptyInputError` (the `ValueError` of the code) and leaves the
`message_count` and `history` of the agent — indeed the whole agent and
world — exactly as they were. -/
theorem C3_empty_input_rejected (a : Agent) (w : World) (m : String)
    (h : isBlank m = true) :
    process_message a w m = (.error .emptyInput, a, w) :=
  process_message_blank a w m h

theorem C3_empty_input_rejected_witness :
    process_message exAgent exWorld "  " = (.error .emptyInput, exAgent, exWorld) :=
  C3_empty_input_rejected exAgent exWorld "  " (by decide)

/-- C7: within one execution scope, two `get_correlation_id` calls with no
intervening `set_correlation_id` return the same value (the first stores what
it generates), and after `set_correlation_id cid` every later
`get_correlation_id` returns exactly `cid` and leaves the context untouched
(so the value persists until the next set). -/
theorem C7_correlation_id_scope (c : CorrelationCtx) (cid : String) :
    (get_correlation_id (get_correlation_id c).2).1 = (get_correlation_id c).1 ∧
    get_correlation_id (set_correlation_id cid c) = (cid, set_correlation_id cid c) := by
  constructor
  · cases h : c.var with
    | some x => simp [get_correlation_id, h]
    | none => simp [get_correlation_id, h]
  · rfl

/-- C1 counterexample: `" "` is a non-empty input text, yet `process_message`
does not return a string and does not touch the history: it raises
`EmptyInputError`, because the guard rejects whitespace-only input, not just
empty input. -/
theorem C1_counterexample :
    (" " : String) ≠ "" ∧
    process_message exAgent exWorld " " = (.error .emptyInput, exAgent, exWorld) := by
  constructor
  · decide
  · rfl

/-- C1 (amended): for every input text that is non-blank (contains at least
one non-whitespace character), `process_message` returns a string `r`,
increases `message_count` by exactly 2 and the history length by exactly 2,
appending `{role := "user", content := text}` and then
`{role := "assistant", content := r}`. -/
theorem C1_two_appends (a : Agent) (w : World) (m : String) (s : AgentState)
    (h : a.state = some s) (hm : isBlank m = false) :
    ∃ r a' w', process_message a w m = (.ok r, a', w') ∧
      a'.state = some { s with
        message_count := s.message_count + 2,
        history := s.history ++ [{ role := "user", content := m },
                                 { role := "assistant", content := r }] } := by
  refine ⟨finalResponse a.llm_config m, _, _, process_message_eq_some a w m s h hm, ?_⟩
  simp [appendMsg]

theorem C1_two_appends_witness :
    ∃ r a' w', process_message exAgent exWorld "xyz" = (.ok r, a', w') ∧
      a'.state = some { exState with
        message_count := exState.message_count + 2,
        history := exState.history ++ [{ role := "user", content := "xyz" },
                                       { role := "assistant", content := r }] } :=
  C1_two_appends exAgent exWorld "xyz" exState rfl (by decide)

/-- C2: `process_message` raises only `EmptyInputError` and only on
empty/whitespace input; when `validate_response` rejects the generated
candidate, the rejection is logged as a warning record and the returned (and
appended) response is the fixed apology string — the validation failure never
escapes as an error. -/
theorem C2_only_empty_input_error (a : Agent) (w : World) (m : String) :
    (∀ e a' w', process_message a w m = (.error e, a', w') →
      e = .emptyInput ∧ isBlank m = true) ∧
    (isBlank m = false → (validate_response a.llm_config (generate_response m)).1 = false →
      ∃ a' w', process_message a w m = (.ok apologyString, a', w') ∧
        (LogLevel.warning, "Response validation failed: " ++
          ((validate_response a.llm_config (generate_response m)).2.getD "")) ∈ w'.log) := by
  constructor
  · intro e a' w' heq
    cases hb : isBlank m with
    | true =>
      exact ⟨by cases e; rfl, rfl⟩
    | false =>
      exfalso
      obtain ⟨a'', w'', hok, _⟩ := process_message_not_blank a w m hb
      rw [heq] at hok
      simp at hok
  · intro hb hv
    obtain ⟨a', w', hok, hmem⟩ := process_message_not_blank a w m hb
    rw [finalResponse_invalid a.llm_config m hv] at hok
    exact ⟨a', w', hok, hmem hv⟩

set_option maxRecDepth 8000 in
theorem C2_only_empty_input_error_witness :
    (∀ e a' w', process_message exAgentSmall exWorld "xyz" = (.error e, a', w') →
      e = .emptyInput ∧ isBlank "xyz" = true) ∧
    ((validate_response exAgentSmall.llm_config (generate_response "xyz")).1 = false ∧
      ∃ a' w', process_message exAgentSmall exWorld "xyz" = (.ok apologyString, a', w') ∧
        (LogLevel.warning, "Response validation failed: " ++
          ((validate_response exAgentSmall.llm_config (generate_response "xyz")).2.getD ""))
          ∈ w'.log) := by
  obtain ⟨h1, h2⟩ := C2_only_empty_input_error exAgentSmall exWorld "xyz"
  exact ⟨h1, by decide, h2 (by decide) (by decide)⟩

/-- C4: `validate_response` is pure by type (it reads only the configuration
and the response, touches no state and emits no log), and its result is a
complete case analysis: "too short" exactly when the trimmed length is below
3 (the `not response` disjunct is subsumed), otherwise "too long" exactly
when the raw length exceeds `max_tokens * 4`, otherwise the harmful-content
reason naming the first matched pattern exactly when some denylist pattern
matches, otherwise `(true, none)`; and a pattern matches exactly when one of
its word alternatives occurs case-insensitively between word boundaries. -/
theorem C4_validate_response_cases (cfg : LLMConfig) (r : String) :
    ((pyStrip r.toList).length < 3 →
      validate_response cfg r = (false, some "Response is empty or too short")) ∧
    (3 ≤ (pyStrip r.toList).length → (r.length : ℤ) > cfg.max_tokens * 4 →
      validate_response cfg r = (false, some ("Response exceeds maximum length of " ++
        toString (cfg.max_tokens * 4) ++ " characters"))) ∧
    (∀ p, 3 ≤ (pyStrip r.toList).length → ¬((r.length : ℤ) > cfg.max_tokens * 4) →
      findHarmfulPattern r = some p →
      validate_response cfg r =
        (false, some ("Response contains potentially harmful content: " ++ p))) ∧
    (3 ≤ (pyStrip r.toList).length → ¬((r.length : ℤ) > cfg.max_tokens * 4) →
      findHarmfulPattern r = none → validate_response cfg r = (true, none)) ∧
    ((findHarmfulPattern r).isSome ↔
      ∃ pat ∈ harmful_patterns, regexWordSearch pat.2 (lowerList r) = true) := by
  have hshort : ∀ h : (pyStrip r.toList).length < 3,
      (decide (r = "") || decide ((pyStrip r.toList).length < 3)) = true := by
    intro h
    rw [decide_eq_true h, Bool.or_true]
  have hlong : ∀ h : 3 ≤ (pyStrip r.toList).length,
      (decide (r = "") || decide ((pyStrip r.toList).length < 3)) = false := by
    intro h
    have hne : ¬(r = "") := by
      rintro rfl
      revert h
      decide
    rw [decide_eq_false hne, decide_eq_false (by omega : ¬((pyStrip r.toList).length < 3))]
    rfl
  refine ⟨?_, ?_, ?_, ?_, ?_⟩
  · intro h
    unfold validate_response
    rw [hshort h]
    rfl
  · intro h3 hlen
    unfold validate_response
    rw [hlong h3]
    simp only [Bool.false_eq_true, if_false]
    rw [if_pos hlen]
  · intro p h3 hlen hfp
    unfold validate_response
    rw [hlong h3]
    simp only [Bool.false_eq_true, if_false]
    rw [if_neg hlen, hfp]
  · intro h3 hlen hfp
    unfold validate_response
    rw [hlong h3]
    simp only [Bool.false_eq_true, if_false]
    rw [if_neg hlen, hfp]
  · unfold findHarmfulPattern
    simp [List.find?_isSome]

set_option maxRecDepth 8000 in
theorem C4_validate_response_cases_witness :
    validate_response defaultLLMConfig "Hi" = (false, some "Response is empty or too short") ∧
    validate_response { defaultLLMConfig with max_tokens := 1 } "This is fine." =
      (false, some ("Response exceeds maximum length of " ++
        toString (({ defaultLLMConfig with max_tokens := 1 } : LLMConfig).max_tokens * 4) ++
        " characters")) ∧
    validate_response defaultLLMConfig "that is a scam." =
      (false, some ("Response contains potentially harmful content: " ++
        "\\b(steal|fraud|scam)\\b")) ∧
    validate_response defaultLLMConfig "This is fine." = (true, none) :=
  ⟨(C4_validate_response_cases defaultLLMConfig "Hi").1 (by decide),
   (C4_validate_response_cases { defaultLLMConfig with max_tokens := 1 } "This is fine.").2.1
     (by decide) (by decide),
   (C4_validate_response_cases defaultLLMConfig "that is a scam.").2.2.1
     "\\b(steal|fraud|scam)\\b" (by decide) (by decide) (by decide),
   (C4_validate_response_cases defaultLLMConfig "This is fine.").2.2.2.1
     (by decide) (by decide) (by decide)⟩

/-- C5: every operation preserves the state invariants.  Construction,
`initialize_state` and `reset_conversation` produce a state with
`message_count = history.length` (both zero); `add_to_history` and
`process_message` keep `message_count = history.length`, only ever extend
`history` (append-only), and never change the `conversation_id` of the state.
`get_conversation_summary` is a pure observer by its very type and mutates
nothing. -/
theorem C5_state_invariants :
    (∀ name cfg sp w, ∃ s',
      ((mkConversationalAgent name cfg sp w).1).state = some s' ∧
      s'.message_count = s'.history.length) ∧
    (∀ a w cid, ∃ s',
      ((initialize_state a w cid).1).state = some s' ∧
      s'.message_count = s'.history.length) ∧
    (∀ a w role content s, a.state = some s → s.message_count = s.history.length →
      ∃ s', ((add_to_history a w role content).1).state = some s' ∧
        s'.message_count = s'.history.length ∧
        s'.history = s.history ++ [{ role := role, content := content }] ∧
        s'.conversation_id = s.conversation_id) ∧
    (∀ a w m s, a.state = some s → s.message_count = s.history.length →
      ∃ s' t, ((process_message a w m).2.1).state = some s' ∧
        s'.message_count = s'.history.length ∧
        s'.history = s.history ++ t ∧
        s'.conversation_id = s.conversation_id) ∧
    (∀ a w, ∃ s', ((reset_conversation a w).1).state = some s' ∧
      s'.message_count = s'.history.length) := by
  refine ⟨?_, ?_, ?_, ?_, ?_⟩
  · intro name cfg sp w
    exact ⟨_, rfl, rfl⟩
  · intro a w cid
    cases cid with
    | none => exact ⟨_, rfl, rfl⟩
    | some c => exact ⟨_, rfl, rfl⟩
  · intro a w role content s h hinv
    rw [add_to_history_some a w role content s h]
    refine ⟨appendMsg s role content, rfl, ?_, rfl, rfl⟩
    simp [appendMsg, hinv]
  · intro a w m s h hinv
    cases hb : isBlank m with
    | true =>
      rw [process_message_blank a w m hb]
      exact ⟨s, [], h, hinv, by simp, rfl⟩
    | false =>
      rw [process_message_eq_some a w m s h hb]
      refine ⟨_, [{ role := "user", content := m },
        { role := "assistant", content := finalResponse a.llm_config m }], rfl, ?_, ?_, rfl⟩
      · simp [appendMsg, hinv]
      · simp [appendMsg]
  · intro a w
    exact ⟨_, rfl, rfl⟩

theorem C5_state_invariants_witness :
    (∃ s', ((add_to_history exAgent exWorld "user" "hey").1).state = some s' ∧
      s'.message_count = s'.history.length ∧
      s'.history = exState.history ++ [{ role := "user", content := "hey" }] ∧
      s'.conversation_id = exState.conversation_id) ∧
    (∃ s' t, ((process_message exAgent exWorld "xyz").2.1).state = some s' ∧
      s'.message_count = s'.history.length ∧
      s'.history = exState.history ++ t ∧
      s'.conversation_id = exState.conversation_id) :=
  ⟨C5_state_invariants.2.2.1 exAgent exWorld "user" "hey" exState rfl rfl,
   C5_state_invariants.2.2.2.1 exAgent exWorld "xyz" exState rfl rfl⟩

/-- C6: `reset_conversation` draws a fresh correlation identifier, installs it
as the current one, and replaces the whole state by a fresh
`ConversationState` keyed to it: afterwards `message_count = 0`,
`history = []`, and — given freshness of the drawn uuid4 value, its collision
resistance — the new `conversation_id` differs from the pre-reset one. -/
theorem C6_reset_fresh_state (a : Agent) (w : World) (s : AgentState)
    (_h : a.state = some s) (hfresh : uuidString w.ctx.nextUuid ≠ s.conversation_id) :
    ∃ s', ((reset_conversation a w).1).state = some s' ∧
      s'.conversation_id = uuidString w.ctx.nextUuid ∧
      s'.conversation_id ≠ s.conversation_id ∧
      s'.message_count = 0 ∧ s'.history = [] ∧
      ((reset_conversation a w).2).ctx.var = some s'.conversation_id :=
  ⟨freshState (uuidString w.ctx.nextUuid), rfl, rfl, hfresh, rfl, rfl, rfl⟩

theorem C6_reset_fresh_state_witness :
    ∃ s', ((reset_conversation exAgent exWorld).1).state = some s' ∧
      s'.conversation_id = uuidString exWorld.ctx.nextUuid ∧
      s'.conversation_id ≠ exState.conversation_id ∧
      s'.message_count = 0 ∧ s'.history = [] ∧
      ((reset_conversation exAgent exWorld).2).ctx.var = some s'.conversation_id :=
  C6_reset_fresh_state exAgent exWorld exState rfl (by decide)

/-- C8: `LLMConfig` construction succeeds exactly when the (defaulted)
`temperature` lies in `[0, 2]` and the (defaulted) `max_tokens` is positive;
moreover every field has a default, so the model has no required field at all
and the "missing required fields" failure mode is vacuous — omitting
everything yields the default configuration. -/
theorem C8_config_bounds :
    (∀ p ak mo t mt ae ad av fp fm et,
      (∃ cfg, mkLLMConfig p ak mo t mt ae ad av fp fm et = .ok cfg) ↔
        (0 ≤ t.getD (7 / 10) ∧ t.getD (7 / 10) ≤ 2 ∧ 0 < mt.getD 1000)) ∧
    mkLLMConfig none none none none none none none none none none none =
      .ok defaultLLMConfig := by
  constructor
  · intro p ak mo t mt ae ad av fp fm et
    unfold mkLLMConfig
    dsimp only
    split_ifs with h1 h2
    · constructor
      · rintro ⟨cfg, hcfg⟩
        simp at hcfg
      · rintro ⟨h0, hle, _⟩
        rcases h1 with h | h <;> linarith
    · constructor
      · rintro ⟨cfg, hcfg⟩
        simp at hcfg
      · rintro ⟨_, _, hmt⟩
        omega
    · constructor
      · intro _
        push_neg at h1
        exact ⟨h1.1, h1.2, by omega⟩
      · intro _
        exact ⟨_, rfl⟩
  · norm_num [mkLLMConfig, defaultLLMConfig]

theorem runOp_state_isSome (s : Agent × World) (op : AgentOp)
    (h : (s.1).state.isSome = true) : ((runOp s op).1).state.isSome = true := by
  cases op with
  | procMsg m =>
    cases hb : isBlank m with
    | true =>
      simp only [runOp]
      rw [process_message_blank s.1 s.2 m hb]
      exact h
    | false =>
      cases hs : (s.1).state with
      | none =>
        simp only [runOp]
        rw [process_message_eq_none s.1 s.2 m hs hb]
        rfl
      | some st =>
        simp only [runOp]
        rw [process_message_eq_some s.1 s.2 m st hs hb]
        rfl
  | addHist role content =>
    cases hs : (s.1).state with
    | none =>
      simp only [runOp]
      rw [add_to_history_none s.1 s.2 role content hs]
      rfl
    | some st =>
      simp only [runOp]
      rw [add_to_history_some s.1 s.2 role content st hs]
      rfl
  | initState cid =>
    cases cid with
    | none => rfl
    | some c => rfl
  | reset => rfl

/-- C9: a `ConversationalAgent` initializes its state at construction, and
every reachable sequence of public operations keeps the state present; hence
`get_conversation_summary` never yields the "No active conversation"
indicator, and the `state is None` guard of `add_to_history` (taken exactly
when the state is absent) is never taken on a constructed agent. -/
theorem C9_state_never_absent (name : String) (cfg : Option LLMConfig)
    (sp : Option String) (w : World) (ops : List AgentOp) :
    ((ops.foldl runOp (mkConversationalAgent name cfg sp w)).1).state.isSome = true ∧
    get_conversation_summary ((ops.foldl runOp (mkConversationalAgent name cfg sp w)).1) ≠
      Summary.noActive := by
  have h0 : ((mkConversationalAgent name cfg sp w).1).state.isSome = true := rfl
  have hfold : ∀ (l : List AgentOp) (s : Agent × World), (s.1).state.isSome = true →
      ((l.foldl runOp s).1).state.isSome = true := by
    intro l
    induction l with
    | nil => exact fun s hs => hs
    | cons op rest ih => exact fun s hs => ih _ (runOp_state_isSome s op hs)
  have hsome := hfold ops _ h0
  refine ⟨hsome, ?_⟩
  cases hs : ((ops.foldl runOp (mkConversationalAgent name cfg sp w)).1).state with
  | none =>
    rw [hs] at hsome
    simp at hsome
  | some st =>
    simp [get_conversation_summary, hs]

/-- C10: when validation rejects the generated candidate, the string returned
and appended as the assistant turn is exactly
"I apologize, but I cannot provide a response at this time.", with no
hypothesis on whether that fallback would itself pass `validate_response`:
it is delivered unvalidated (the witness instantiates a configuration under
which the fallback fails validation, `max_tokens * 4 = 4 < 58`). -/
theorem C10_fallback_delivered_unvalidated (a : Agent) (w : World) (m : String)
    (s : AgentState) (h : a.state = some s) (hm : isBlank m = false)
    (hv : (validate_response a.llm_config (generate_response m)).1 = false) :
    (process_message a w m).1 = .ok apologyString ∧
    ((process_message a w m).2.1).state = some { s with
      message_count := s.message_count + 2,
      history := s.history ++ [{ role := "user", content := m },
                               { role := "assistant", content := apologyString }] } := by
  have heq := process_message_eq_some a w m s h hm
  rw [finalResponse_invalid a.llm_config m hv] at heq
  rw [heq]
  constructor
  · rfl
  · simp [appendMsg]

set_option maxRecDepth 8000 in
theorem C10_fallback_delivered_unvalidated_witness :
    (validate_response exAgentSmall.llm_config apologyString).1 = false ∧
    (process_message exAgentSmall exWorld "xyz").1 = .ok apologyString ∧
    ((process_message exAgentSmall exWorld "xyz").2.1).state = some { exState with
      message_count := exState.message_count + 2,
      history := exState.history ++ [{ role := "user", content := "xyz" },
        { role := "assistant", content := apologyString }] } :=
  ⟨by decide,
   C10_fallback_delivered_unvalidated exAgentSmall exWorld "xyz" exState rfl
     (by decide) (by decide)⟩

theorem C7_correlation_id_scope_witness :
    (get_correlation_id (get_correlation_id exWorld.ctx).2).1 =
      (get_correlation_id exWorld.ctx).1 ∧
    get_correlation_id (set_correlation_id "abc" exWorld.ctx) =
      ("abc", set_correlation_id "abc" exWorld.ctx) :=
  C7_correlation_id_scope exWorld.ctx "abc"

theorem C9_state_never_absent_witness :
    ((([AgentOp.procMsg "hello", AgentOp.reset,
        AgentOp.addHist "user" "x"]).foldl runOp
          (mkConversationalAgent "ConversationalAgent" none none exWorld)).1).state.isSome =
      true ∧
    get_conversation_summary
      ((([AgentOp.procMsg "hello", AgentOp.reset,
          AgentOp.addHist "user" "x"]).foldl runOp
            (mkConversationalAgent "ConversationalAgent" none none exWorld)).1) ≠
      Summary.noActive :=
  C9_state_never_absent "ConversationalAgent" none none exWorld
    [AgentOp.procMsg "hello", AgentOp.reset, AgentOp.addHist "user" "x"]
